import Mathlib

/-!
Verification development for the picstories session-based generation and
review workflow engine: the session store (session.service.ts), the context
window selector (getLastPrevImages), the page generation orchestrators
(storybook / coloring-book / poems controllers), the planning validation
(openai.service.ts generatePagePrompts), the image backend context truncation
(gemini.service.ts generateImageFromPrompt), the background completion sweep
(backgroundGenerateAll) and the finalize / document assembly path.

JavaScript numbers are modelled as rationals, machine timestamps as naturals,
optional JSON fields as Option, and thrown exceptions as Except / unchanged
stored state, as noted on each definition.
-/

namespace Picstories

/-- Truthiness of an optional string, as JavaScript tests it with
if (x) / !!x: undefined and the empty string are falsy. -/
def strTruthy : Option String → Bool
  | none => false
  | some s => !s.isEmpty

/-- JavaScript x || d for an optional numeric field: undefined and 0 are
falsy and select the default. -/
def jsOr (x : Option ℚ) (d : ℚ) : ℚ :=
  match x with
  | none => d
  | some v => if v = 0 then d else v

/-- JavaScript Math.round for finite numbers: floor of x + 1/2. -/
def jsRound (x : ℚ) : ℤ := ⌊x + 1 / 2⌋

/-- Whether the character list s starts with the pattern pat. -/
def listStartsWith : List Char → List Char → Bool
  | _, [] => true
  | [], _ :: _ => false
  | a :: s, b :: pat => a == b && listStartsWith s pat

/-- Whether the pattern occurs as a contiguous run inside s. -/
def listHasSub : List Char → List Char → Bool
  | [], pat => pat.isEmpty
  | a :: rest, pat => listStartsWith (a :: rest) pat || listHasSub rest pat

/-- JavaScript String.prototype.includes: substring occurrence. -/
def jsIncludes (s sub : String) : Bool := listHasSub s.toList sub.toList

/-- The inches clamp Math.max(1, Math.min(30, Number(v || default))) applied
to every print-spec dimension in the controllers. -/
def clampInches (x : Option ℚ) (d : ℚ) : ℚ := max 1 (min 30 (jsOr x d))

/-! ## Data model (session.service.ts) -/

/-- One page record of a session (SessionPageState in session.service.ts).
index 0 is the cover, 1..N the interior pages; imagePath is the artifact
reference, absent until generated. -/
structure SessionPageState where
  index : Nat
  prompt : String
  text : Option String := none
  imagePath : Option String := none
  imageUrl : Option String := none
  mimeType : Option String := none
  confirmed : Option Bool := none
deriving DecidableEq, Repr

/-- Default used to model a JavaScript out-of-bounds array read. -/
def defaultPage : SessionPageState := { index := 0, prompt := "" }

instance : Inhabited SessionPageState := ⟨defaultPage⟩

/-- A stored user-supplied context image (path + media type). -/
structure ContextImage where
  imagePath : String
  mimeType : Option String := none
deriving DecidableEq, Repr

/-- The optional print specification carried in the options bag
(options.printSpec; the options.print alias is folded into this field). -/
structure PrintSpec where
  widthInches : Option ℚ := none
  heightInches : Option ℚ := none
  dpi : Option ℚ := none
  fit : Option String := none
deriving DecidableEq, Repr

/-- The free-form options bag, restricted to the fields the workflow engine
reads: the print specification and the precharged billing flag. -/
structure SessionOptions where
  printSpec : Option PrintSpec := none
  precharged : Bool := false
deriving DecidableEq, Repr

/-- A persisted session record (SessionState in session.service.ts). -/
structure SessionState where
  id : String
  title : String
  basePrompt : String
  options : SessionOptions := {}
  pageCount : Nat
  cover : SessionPageState
  items : List SessionPageState
  contextImages : List ContextImage := []
  createdAt : Nat
  updatedAt : Nat
deriving DecidableEq, Repr

/-! ## List helpers mirroring the JavaScript array idioms -/

/-- In-place update of the element at position k, mirroring the mutation
state.items[k].field = v on a loaded session; positions past the end are
left untouched (the store is only saved after a successful lookup). -/
def listModify : List α → Nat → (α → α) → List α
  | [], _, _ => []
  | a :: t, 0, f => f a :: t
  | a :: t, k + 1, f => a :: listModify t k f

/-- Array.prototype.slice(-n) for n ≥ 1: the last n elements. -/
def lastN (l : List α) (n : Nat) : List α := l.drop (l.length - n)

/-- pagePrompts.map((p, i) => ({ index: i + 1, prompt: p })) generalised to
an arbitrary starting index. -/
def seedPages (start : Nat) : List String → List SessionPageState
  | [] => []
  | p :: rest => { index := start, prompt := p } :: seedPages (start + 1) rest

theorem listModify_length (l : List α) (k : Nat) (f : α → α) :
    (listModify l k f).length = l.length := by
  induction l generalizing k with
  | nil => rfl
  | cons a t ih =>
    cases k with
    | zero => rfl
    | succ k => simp [listModify, ih]

theorem getD_listModify (l : List α) (k i : Nat) (f : α → α) (d : α) :
    (listModify l k f).getD i d =
      if i = k ∧ i < l.length then f (l.getD i d) else l.getD i d := by
  induction l generalizing k i with
  | nil => simp [listModify]
  | cons a t ih =>
    cases k with
    | zero =>
      cases i with
      | zero => simp [listModify]
      | succ i => simp [listModify, Nat.succ_ne_zero]
    | succ k =>
      cases i with
      | zero => simp [listModify]
      | succ i =>
        simp only [listModify, List.getD_cons_succ, ih, List.length_cons]
        by_cases h : i = k ∧ i < t.length
        · rw [if_pos h, if_pos ⟨by omega, by omega⟩]
        · rw [if_neg h, if_neg (by omega)]

theorem seedPages_length (start : Nat) (l : List String) :
    (seedPages start l).length = l.length := by
  induction l generalizing start with
  | nil => rfl
  | cons p rest ih => simp [seedPages, ih]

theorem seedPages_getD (start : Nat) (l : List String) (i : Nat)
    (h : i < l.length) :
    (seedPages start l).getD i defaultPage =
      { index := start + i, prompt := l.getD i "" } := by
  induction l generalizing start i with
  | nil => simp at h
  | cons p rest ih =>
    cases i with
    | zero => simp [seedPages]
    | succ i =>
      simp only [seedPages, List.getD_cons_succ]
      rw [ih (start + 1) i (by simpa using Nat.lt_of_succ_lt_succ h)]
      have harith : start + 1 + i = start + (i + 1) := by omega
      rw [harith]

theorem lastN_length (l : List α) (n : Nat) :
    (lastN l n).length = min n l.length := by
  simp [lastN]
  omega

theorem lastN_cons_of_le (a : α) (l : List α) (n : Nat) (h : n ≤ l.length) :
    lastN (a :: l) n = lastN l n := by
  have : a :: l = [a] ++ l := rfl
  simp only [lastN, List.length_cons]
  have hs : l.length + 1 - n = (l.length - n) + 1 := by omega
  rw [hs]
  rfl

/-! ## Session store operations (session.service.ts)

Every operation loads the session from the store, mutates the loaded record
and writes it back through saveSession, which refreshes updatedAt.  The
store is modelled by the SessionState value itself; an operation that throws
in the source (session not found, invalid page index) leaves the persisted
record unchanged, so it is modelled as returning the state unmodified.
Timestamps (Date.now()) are passed explicitly. -/

/-- createSession: seeds the cover at index 0 with the planned cover prompt
and one interior page per planned prompt at indices 1, 2, ...; no page holds
an artifact or a confirmed flag.  The final saveSession writes the same
creation timestamp. -/
def createSession (title basePrompt : String) (pageCount : Nat)
    (options : SessionOptions) (coverPrompt : String)
    (pagePrompts : List String) (id : String) (now : Nat) : SessionState :=
  { id := id
    title := title
    basePrompt := basePrompt
    options := options
    pageCount := pageCount
    cover := { index := 0, prompt := coverPrompt }
    items := seedPages 1 pagePrompts
    createdAt := now
    updatedAt := now }

/-- saveSession: the sole durability boundary; refreshes updatedAt. -/
def saveSession (s : SessionState) (now : Nat) : SessionState :=
  { s with updatedAt := now }

/-- getPage with its ensureValidIndex bounds check: index 0 is the cover,
1..pageCount select state.items[idx - 1]; an out-of-range index (or a read
past the end of items) yields none, modelling the thrown error / undefined
element. -/
def getPage? (s : SessionState) (idx : Nat) : Option SessionPageState :=
  if idx > s.pageCount then none
  else if idx = 0 then some s.cover
  else s.items.get? (idx - 1)

/-- The page record at an index of a loaded session, as the controllers read
it: idx === 0 ? state.cover : state.items[idx - 1]. -/
def pageAt (s : SessionState) (idx : Nat) : SessionPageState :=
  if idx = 0 then s.cover else s.items.getD (idx - 1) defaultPage

/-- Mutation of the page record at an index on the loaded session object. -/
def updatePage (s : SessionState) (idx : Nat)
    (f : SessionPageState → SessionPageState) : SessionState :=
  if idx = 0 then { s with cover := f s.cover }
  else { s with items := listModify s.items (idx - 1) f }

/-- setPagePrompt: overwrites a page's prompt and saves; a failed lookup
throws before any save, leaving the store unchanged. -/
def setPagePrompt (s : SessionState) (idx : Nat) (p : String) (now : Nat) :
    SessionState :=
  match getPage? s idx with
  | none => s
  | some _ => saveSession (updatePage s idx (fun pg => { pg with prompt := p })) now

/-- setPageText: overwrites a page's caption/body text and saves. -/
def setPageText (s : SessionState) (idx : Nat) (t : String) (now : Nat) :
    SessionState :=
  match getPage? s idx with
  | none => s
  | some _ => saveSession (updatePage s idx (fun pg => { pg with text := some t })) now

/-- page.mimeType = mimeType || 'image/png'. -/
def mimeOrPng (mimeType : Option String) : String :=
  match mimeType with
  | none => "image/png"
  | some m => if m.isEmpty then "image/png" else m

/-- The file extension picked by storePageImage from the media type. -/
def extFor (mimeType : Option String) : String :=
  match mimeType with
  | none => "png"
  | some mt =>
    if jsIncludes mt "png" then "png"
    else if jsIncludes mt "jpg" || jsIncludes mt "jpeg" then "jpg"
    else "png"

/-- The artifact file name page-idx-ts.ext written by storePageImage. -/
def pageImageFile (idx ts : Nat) (ext : String) : String :=
  "page-" ++ toString idx ++ "-" ++ toString ts ++ "." ++ ext

/-- storePageImage: writes the produced bytes under a fresh timestamped name
and unconditionally overwrites the page's imagePath and mimeType, then
saves.  No empty-slot or pre-call recheck is performed here.  The optional
R2 upload only adds a public imageUrl and is elided as an external
collaborator.  An invalid index throws (after the file write) before the
record is mutated, leaving the stored session unchanged. -/
def storePageImage (s : SessionState) (idx : Nat) (mimeType : Option String)
    (ts : Nat) : SessionState :=
  match getPage? s idx with
  | none => s
  | some _ =>
    let absPath := pageImageFile idx ts (extFor mimeType)
    saveSession
      (updatePage s idx (fun pg =>
        { pg with imagePath := some absPath, mimeType := some (mimeOrPng mimeType) }))
      ts

/-- markConfirmed: sets the page's confirmed flag and saves. -/
def markConfirmed (s : SessionState) (idx : Nat) (c : Bool) (now : Nat) :
    SessionState :=
  match getPage? s idx with
  | none => s
  | some _ =>
    saveSession (updatePage s idx (fun pg => { pg with confirmed := some c })) now

/-- storeContextImages: stores up to two decodable reference images and
saves; the artifact paths are passed already decoded. -/
def storeContextImages (s : SessionState) (stored : List ContextImage)
    (now : Nat) : SessionState :=
  saveSession { s with contextImages := stored.take 2 } now

/-- A prior artifact handed to the image backend: the bytes read back from
the page's imagePath together with its media type. -/
structure ArtifactRef where
  imagePath : String
  mimeType : Option String := none
deriving DecidableEq, Repr

/-- The artifact reference read from a page that holds one. -/
def refOf (p : SessionPageState) : ArtifactRef :=
  { imagePath := p.imagePath.getD "", mimeType := p.mimeType }

/-- getLastPrevImages: over [cover, ...items], keeps the first idx pages
(slice(0, idx)), filters those whose imagePath is truthy, and returns the
last max(1, floor(count)) of them (slice(-n)), reading each file back.
File reads are modelled as always succeeding. -/
def getLastPrevImages (s : SessionState) (idx : Nat) (count : ℚ := 2) :
    List ArtifactRef :=
  let all := s.cover :: s.items
  let prev := (all.take idx).filter (fun p => strTruthy p.imagePath)
  let n : Nat := (max 1 ⌊count⌋).toNat
  (lastN prev n).map refOf

/-- getContextImageBuffers: reads back the session's standing context
images; reads are modelled as always succeeding. -/
def getContextImageBuffers (s : SessionState) : List ArtifactRef :=
  s.contextImages.map (fun c => { imagePath := c.imagePath, mimeType := c.mimeType })

/-! ## Plan validation (openai.service.ts generatePagePrompts /
generateStoryImagePrompts) and the planning flow of the session
controllers. -/

/-- One planned interior page as parsed from the text-planning backend. -/
structure PlanItem where
  index : Int
  prompt : String
  caption : Option String := none
deriving DecidableEq, Repr

/-- The backend response after JSON decoding, as the source reads it:
coverPagePrompt defaults to "" when missing or not a string, items defaults
to [] when missing or not an array.  parsed = none models output that
failed JSON.parse. -/
structure ParsedPlanResponse where
  content : String
  parsed : Option (String × List PlanItem)
deriving DecidableEq, Repr

/-- The validated plan returned by generatePagePrompts. -/
structure PlanResult where
  coverPagePrompt : String
  items : List PlanItem
deriving DecidableEq, Repr

/-- generatePagePrompts validation tail: empty content, unparsable JSON, a
falsy coverPagePrompt and an interior item count different from the
requested pageCount are all fatal errors; otherwise the parsed plan is
returned. -/
def generatePagePrompts (pageCount : Nat) (resp : ParsedPlanResponse) :
    Except String PlanResult :=
  if resp.content.isEmpty then
    .error "OpenAI returned empty content for page prompts"
  else
    match resp.parsed with
    | none => .error "Failed to parse OpenAI JSON response"
    | some (cover, items) =>
      if cover.isEmpty then
        .error "Missing coverPagePrompt in OpenAI response"
      else if items.length ≠ pageCount then
        .error ("Expected " ++ toString pageCount ++ " interior page prompts, got "
          ++ toString items.length)
      else
        .ok { coverPagePrompt := cover, items := items }

/-- planSession after request validation and billing: plan the prompts,
then create and persist the session seeded from the plan.  A planning error
propagates before createSession runs, so no session is created. -/
def planSessionCore (title basePrompt : String) (pageCount : Nat)
    (options : SessionOptions) (resp : ParsedPlanResponse) (id : String)
    (now : Nat) : Except String SessionState :=
  match generatePagePrompts pageCount resp with
  | .error e => .error e
  | .ok plan =>
    .ok (createSession title basePrompt pageCount options plan.coverPagePrompt
      (plan.items.map (fun p => p.prompt)) id now)

/-! ## Image backend wrapper (gemini.service.ts generateImageFromPrompt) -/

/-- The inline context images actually sent to the backend: when
previousImages is non-empty only its last THREE entries are used
(slice(-3)); otherwise a single previousImage is used when supplied. -/
def geminiContextImages (previousImages : List ArtifactRef)
    (previousImage : Option ArtifactRef) : List ArtifactRef :=
  if previousImages.length > 0 then lastN previousImages 3
  else
    match previousImage with
    | some img => [img]
    | none => []

/-! ## Orchestrator context assembly and the generation writers
(storybook.controller.ts, coloringBook.controller.ts) -/

/-- combo.unshift(userRef): a decodable caller-supplied reference image is
put at the front of the assembled context list. -/
def unshiftUserRef (userRef : Option ArtifactRef)
    (combo : List ArtifactRef) : List ArtifactRef :=
  match userRef with
  | some r => r :: combo
  | none => combo

/-- The combo list assembled by the storybook generatePage handler: prior
artifacts (count 3), then the session's standing context images, with a
decodable caller-supplied reference image unshifted to the front. -/
def storybookGenerateCombo (s : SessionState) (idx : Nat)
    (userRef : Option ArtifactRef) : List ArtifactRef :=
  unshiftUserRef userRef
    (getLastPrevImages s idx 3 ++ getContextImageBuffers s)

/-- The storybook Generate doWork tail, from the return of the image
backend: re-load the session (after); stop if it vanished; discard the
produced artifact if the target slot already holds one; otherwise persist
through storePageImage.  Both the synchronous and the fire-and-return mode
run exactly this function. -/
def storybookGenerateDoWork (idx : Nat) (mimeType : Option String) (ts : Nat)
    (after : Option SessionState) : Option SessionState :=
  match after with
  | none => none
  | some a =>
    if strTruthy (pageAt a idx).imagePath then some a
    else some (storePageImage a idx mimeType ts)

/-- The storybook Edit doWork tail: discard only when the slot holds an
artifact that differs from the pre-call snapshot page.imagePath; otherwise
persist. -/
def storybookEditDoWork (prePage : SessionPageState) (idx : Nat)
    (mimeType : Option String) (ts : Nat) (after : Option SessionState) :
    Option SessionState :=
  match after with
  | none => none
  | some a =>
    if strTruthy (pageAt a idx).imagePath
        && !(prePage.imagePath == (pageAt a idx).imagePath) then some a
    else some (storePageImage a idx mimeType ts)

/-- The coloring-book foreground generatePage handler
(coloringBook.controller.ts): after validating the index against the
pre-call state it generates and then calls storePageImage directly on the
store's current state — no re-load guard is performed before persisting. -/
def coloringGeneratePage (pre : SessionState) (idx : Nat)
    (mimeType : Option String) (ts : Nat) (atStore : SessionState) :
    Option SessionState :=
  if idx > pre.pageCount then none
  else some (storePageImage atStore idx mimeType ts)

/-- The replacePageImage handler after a successful body decode: the
supplied bytes go straight to storePageImage on the store's current state,
with no slot recheck. -/
def replacePageImage (atStore : SessionState) (idx : Nat)
    (mimeType : Option String) (ts : Nat) : SessionState :=
  storePageImage atStore idx mimeType ts

/-! ## Background completion sweep (backgroundGenerateAll) -/

/-- What the sweep did at one index. -/
inductive SweepAction
  | stop
  | skip
  | fail
  | discard
  | store
deriving DecidableEq, Repr

/-- The concurrent environment seen by one sweep run: the result of the
initial loadSession, of the fresh loadSession at the top of each loop
iteration, whether the generation call at each index succeeds, and the
result of the guard re-load after generation.  Concurrent writers are
modelled by letting these loads return arbitrary session states. -/
structure SweepOracle where
  initial : Option SessionState
  loadBefore : Nat → Option SessionState
  genOk : Nat → Bool
  loadAfter : Nat → Option SessionState

/-- One loop iteration of backgroundGenerateAll at index i: re-load the
current state (break when the session vanished), skip when the page already
holds an artifact, catch and log a generation failure, otherwise re-load
for the concurrency guard and either discard or persist. -/
def sweepStepAction (o : SweepOracle) (i : Nat) : SweepAction :=
  match o.loadBefore i with
  | none => .stop
  | some cur =>
    if strTruthy (pageAt cur i).imagePath then .skip
    else if !o.genOk i then .fail
    else
      match o.loadAfter i with
      | none => .stop
      | some after =>
        if strTruthy (pageAt after i).imagePath then .discard
        else .store

/-- The loop of backgroundGenerateAll from index i, with fuel many
iterations remaining; a stop (break) ends the sweep early, every other
action moves on to the next index. -/
def sweepGo (o : SweepOracle) : Nat → Nat → List (Nat × SweepAction)
  | _, 0 => []
  | i, fuel + 1 =>
    let a := sweepStepAction o i
    (i, a) :: (if a = .stop then [] else sweepGo o (i + 1) fuel)

/-- backgroundGenerateAll: load the session once to size the job, then walk
indices 0..pageCount (total = 1 + pageCount) in ascending order. -/
def backgroundGenerateAll (o : SweepOracle) : List (Nat × SweepAction) :=
  match o.initial with
  | none => []
  | some st => sweepGo o 0 (1 + st.pageCount)

/-! ## Finalize and document assembly -/

/-- Fit policy for a fixed print size. -/
inductive FitMode
  | contain
  | cover
deriving DecidableEq, Repr

/-- print.fit === 'cover' ? 'cover' : 'contain'. -/
def fitOf (fit : Option String) : FitMode :=
  if fit = some "cover" then .cover else .contain

/-- One page of the assembled document: its page box in points and the
rectangle the artifact is drawn into. -/
structure PdfPage where
  width : ℚ
  height : ℚ
  drawX : ℚ
  drawY : ℚ
  drawW : ℚ
  drawH : ℚ
deriving DecidableEq, Repr

/-- The assembled paginated document. -/
structure PdfDoc where
  pages : List PdfPage
deriving DecidableEq, Repr

/-- Modelled from the spec: the drawn rectangle of buildPdfAtSize, whose
source (pdf.service.ts buildPdfAtSize / buildPdfWithTextAtSize) is not in
the repository snapshot — contain scales the artifact to fit entirely
within the page and cover scales it to fill the page, both preserving
aspect ratio and centering. -/
def fitRect (fit : FitMode) (pageW pageH imgW imgH : ℚ) : ℚ × ℚ × ℚ × ℚ :=
  let scale :=
    match fit with
    | .contain => min (pageW / imgW) (pageH / imgH)
    | .cover => max (pageW / imgW) (pageH / imgH)
  let w := imgW * scale
  let h := imgH * scale
  ((pageW - w) / 2, (pageH - h) / 2, w, h)

/-- Modelled from the spec: buildPdfAtSize (pdf.service.ts, not in the
repository snapshot) — every page of the document uses the configured
physical size in points regardless of the artifact's native dimensions,
and the artifact is drawn per the fit policy. -/
def buildPdfAtSize (images : List (ℚ × ℚ)) (pageWidthPts pageHeightPts : ℤ)
    (fit : FitMode) : PdfDoc :=
  { pages := images.map (fun d =>
      let r := fitRect fit pageWidthPts pageHeightPts d.1 d.2
      { width := pageWidthPts, height := pageHeightPts
        drawX := r.1, drawY := r.2.1, drawW := r.2.2.1, drawH := r.2.2.2 }) }

/-- Modelled from the spec: buildPdf (natural size mode, pdf.service.ts) —
each page's dimensions equal the artifact's native dimensions, drawn
edge-to-edge. -/
def buildPdfNatural (images : List (ℚ × ℚ)) : PdfDoc :=
  { pages := images.map (fun d =>
      { width := d.1, height := d.2, drawX := 0, drawY := 0
        drawW := d.1, drawH := d.2 }) }

/-- The missing-page indices computed by finalizeSession:
[cover, ...items].filter(p => !p.imagePath).map(p => p.index). -/
def finalizeMissing (s : SessionState) : List Nat :=
  ((s.cover :: s.items).filter (fun p => !(strTruthy p.imagePath))).map
    (fun p => p.index)

/-- Result of a finalize call. -/
inductive FinalizeResult
  | incomplete (missing : List Nat)
  | done (doc : PdfDoc)
deriving DecidableEq, Repr

/-- The native pixel dimensions of each stored artifact, read back from the
artifact store when finalize embeds the images. -/
def ArtifactDims : Type := String → ℚ × ℚ

/-- The artifact bytes finalize reads back from every page, represented by
their native dimensions. -/
def finalizeImages (s : SessionState) (dims : ArtifactDims) : List (ℚ × ℚ) :=
  (s.cover :: s.items).map (fun p => dims (p.imagePath.getD ""))

/-- The fixed-size document finalize builds when a print spec is present:
inches clamped to [1, 30] with the falsy values replaced by the A4
defaults 8.27 × 11.69, rounded to points at 72 per inch. -/
def finalizePrintDoc (s : SessionState) (dims : ArtifactDims)
    (print : PrintSpec) : PdfDoc :=
  buildPdfAtSize (finalizeImages s dims)
    (jsRound (clampInches print.widthInches 8.27 * 72))
    (jsRound (clampInches print.heightInches 11.69 * 72))
    (fitOf print.fit)

/-- finalizeSession (storybook / coloring-book / poems controllers): if any
page lacks an artifact, answer 400 with every missing index and build
nothing; otherwise read every artifact back and assemble the document — at
the fixed print size when a print spec is present, at natural size
otherwise.  Finalize never writes the session. -/
def finalizeSession (s : SessionState) (dims : ArtifactDims) : FinalizeResult :=
  if (finalizeMissing s).length ≠ 0 then .incomplete (finalizeMissing s)
  else
    match s.options.printSpec with
    | some print => .done (finalizePrintDoc s dims print)
    | none => .done (buildPdfNatural (finalizeImages s dims))

/-! ## The session's mutation lifetime -/

/-- The store-mutating operations available on a planned session. -/
inductive SessionOp
  | setPrompt (idx : Nat) (p : String) (t : Nat)
  | setText (idx : Nat) (txt : String) (t : Nat)
  | storeImage (idx : Nat) (mime : Option String) (t : Nat)
  | confirm (idx : Nat) (c : Bool) (t : Nat)
  | storeCtx (imgs : List ContextImage) (t : Nat)
deriving DecidableEq, Repr

/-- Apply one operation to the stored session record. -/
def applyOp (s : SessionState) : SessionOp → SessionState
  | .setPrompt idx p t => setPagePrompt s idx p t
  | .setText idx txt t => setPageText s idx txt t
  | .storeImage idx mime t => storePageImage s idx mime t
  | .confirm idx c t => markConfirmed s idx c t
  | .storeCtx imgs t => storeContextImages s imgs t

/-- Apply a whole history of operations in order. -/
def applyOps (s : SessionState) (ops : List SessionOp) : SessionState :=
  ops.foldl applyOp s

/-! ## Session shape invariant -/

/-- The planned shape of a session with n interior pages: the cover sits at
index 0 and the interior list holds exactly n pages carrying the stable
indices 1..n in order. -/
def sessionShapeOK (n : Nat) (s : SessionState) : Prop :=
  s.cover.index = 0 ∧ s.items.length = n ∧
    ∀ i < n, (s.items.getD i defaultPage).index = i + 1

instance (n : Nat) (s : SessionState) : Decidable (sessionShapeOK n s) := by
  unfold sessionShapeOK; infer_instance

theorem updatePage_items_length (s : SessionState) (idx : Nat)
    (f : SessionPageState → SessionPageState) :
    (updatePage s idx f).items.length = s.items.length := by
  unfold updatePage
  split
  · rfl
  · simp [listModify_length]

theorem updatePage_pageCount (s : SessionState) (idx : Nat)
    (f : SessionPageState → SessionPageState) :
    (updatePage s idx f).pageCount = s.pageCount := by
  unfold updatePage
  split <;> rfl

theorem sessionShapeOK_updatePage (n : Nat) (s : SessionState) (idx : Nat)
    (f : SessionPageState → SessionPageState)
    (hf : ∀ p, (f p).index = p.index) (h : sessionShapeOK n s) :
    sessionShapeOK n (updatePage s idx f) := by
  obtain ⟨hc, hl, hi⟩ := h
  unfold updatePage
  split
  · exact ⟨by simpa [hf] using hc, hl, hi⟩
  · refine ⟨hc, by simpa [listModify_length] using hl, ?_⟩
    intro i hilt
    rw [getD_listModify]
    split
    · rw [hf]; exact hi i hilt
    · exact hi i hilt

theorem sessionShapeOK_saveSession (n : Nat) (s : SessionState) (now : Nat)
    (h : sessionShapeOK n s) : sessionShapeOK n (saveSession s now) := h

theorem sessionShapeOK_applyOp (n : Nat) (s : SessionState) (op : SessionOp)
    (h : sessionShapeOK n s) : sessionShapeOK n (applyOp s op) := by
  cases op with
  | setPrompt idx p t =>
    show sessionShapeOK n (setPagePrompt s idx p t)
    unfold setPagePrompt
    cases hg : getPage? s idx with
    | none => exact h
    | some pg =>
      exact sessionShapeOK_saveSession n _ t
        (sessionShapeOK_updatePage n s idx _ (fun _ => rfl) h)
  | setText idx txt t =>
    show sessionShapeOK n (setPageText s idx txt t)
    unfold setPageText
    cases hg : getPage? s idx with
    | none => exact h
    | some pg =>
      exact sessionShapeOK_saveSession n _ t
        (sessionShapeOK_updatePage n s idx _ (fun _ => rfl) h)
  | storeImage idx mime t =>
    show sessionShapeOK n (storePageImage s idx mime t)
    unfold storePageImage
    cases hg : getPage? s idx with
    | none => exact h
    | some pg =>
      exact sessionShapeOK_saveSession n _ t
        (sessionShapeOK_updatePage n s idx _ (fun _ => rfl) h)
  | confirm idx c t =>
    show sessionShapeOK n (markConfirmed s idx c t)
    unfold markConfirmed
    cases hg : getPage? s idx with
    | none => exact h
    | some pg =>
      exact sessionShapeOK_saveSession n _ t
        (sessionShapeOK_updatePage n s idx _ (fun _ => rfl) h)
  | storeCtx imgs t => exact h

theorem applyOp_pageCount (s : SessionState) (op : SessionOp) :
    (applyOp s op).pageCount = s.pageCount := by
  cases op with
  | setPrompt idx p t =>
    show (setPagePrompt s idx p t).pageCount = s.pageCount
    unfold setPagePrompt
    cases hg : getPage? s idx with
    | none => rfl
    | some pg => simp [saveSession, updatePage_pageCount]
  | setText idx txt t =>
    show (setPageText s idx txt t).pageCount = s.pageCount
    unfold setPageText
    cases hg : getPage? s idx with
    | none => rfl
    | some pg => simp [saveSession, updatePage_pageCount]
  | storeImage idx mime t =>
    show (storePageImage s idx mime t).pageCount = s.pageCount
    unfold storePageImage
    cases hg : getPage? s idx with
    | none => rfl
    | some pg => simp [saveSession, updatePage_pageCount]
  | confirm idx c t =>
    show (markConfirmed s idx c t).pageCount = s.pageCount
    unfold markConfirmed
    cases hg : getPage? s idx with
    | none => rfl
    | some pg => simp [saveSession, updatePage_pageCount]
  | storeCtx imgs t => rfl

theorem sessionShapeOK_applyOps (n : Nat) (s : SessionState)
    (ops : List SessionOp) (h : sessionShapeOK n s) :
    sessionShapeOK n (applyOps s ops) := by
  induction ops generalizing s with
  | nil => exact h
  | cons op rest ih => exact ih _ (sessionShapeOK_applyOp n s op h)

theorem applyOps_pageCount (s : SessionState) (ops : List SessionOp) :
    (applyOps s ops).pageCount = s.pageCount := by
  induction ops generalizing s with
  | nil => rfl
  | cons op rest ih =>
    calc (applyOps (applyOp s op) rest).pageCount
        = (applyOp s op).pageCount := ih _
      _ = s.pageCount := applyOp_pageCount s op

theorem generatePagePrompts_ok {n : Nat} {resp : ParsedPlanResponse}
    {plan : PlanResult} (h : generatePagePrompts n resp = .ok plan) :
    plan.items.length = n ∧ plan.coverPagePrompt.isEmpty = false := by
  simp only [generatePagePrompts] at h
  split at h
  · exact absurd h (by simp)
  · split at h
    · exact absurd h (by simp)
    · split at h
      · exact absurd h (by simp)
      · split at h
        · exact absurd h (by simp)
        · cases h
          rename_i hcover hlen
          rw [not_ne_iff] at hlen
          exact ⟨by simpa using hlen, by simpa using hcover⟩

theorem planSessionCore_error {title basePrompt id : String} {n : Nat}
    {options : SessionOptions} {resp : ParsedPlanResponse} {now : Nat}
    {e : String} (h : generatePagePrompts n resp = .error e) :
    planSessionCore title basePrompt n options resp id now = .error e := by
  unfold planSessionCore
  rw [h]

theorem generatePagePrompts_bad {n : Nat} {resp : ParsedPlanResponse}
    {cover : String} {items : List PlanItem}
    (hp : resp.parsed = some (cover, items))
    (hbad : items.length ≠ n ∨ cover.isEmpty = true) :
    ∃ e, generatePagePrompts n resp = .error e := by
  obtain ⟨content, parsed⟩ := resp
  simp only at hp
  subst hp
  simp only [generatePagePrompts]
  by_cases h1 : content.isEmpty = true
  · rw [if_pos h1]; exact ⟨_, rfl⟩
  · rw [if_neg h1]
    rcases hbad with hl | hc
    · by_cases hc : cover.isEmpty = true
      · rw [if_pos hc]; exact ⟨_, rfl⟩
      · rw [if_neg hc, if_pos hl]; exact ⟨_, rfl⟩
    · rw [if_pos hc]; exact ⟨_, rfl⟩

/-- Claim C2: a successful Plan persists a session whose cover has index 0 and the
planned cover prompt, whose interior list holds exactly pageCount pages at
indices 1..pageCount in planned order, each seeded with its planned prompt
and holding neither an artifact nor a confirmed flag; and this shape
(exactly pageCount interior pages at stable indices, cover at 0) is
preserved by every sequence of store operations for the session's
lifetime. -/
theorem planSession_shape (title basePrompt id : String) (n : Nat)
    (options : SessionOptions) (resp : ParsedPlanResponse) (now : Nat)
    (s : SessionState)
    (h : planSessionCore title basePrompt n options resp id now = .ok s) :
    (∃ plan, generatePagePrompts n resp = .ok plan ∧
      s.cover.index = 0 ∧
      s.cover.prompt = plan.coverPagePrompt ∧
      s.cover.imagePath = none ∧
      s.cover.confirmed = none ∧
      s.pageCount = n ∧
      s.items.length = n ∧
      ∀ i < n,
        (s.items.getD i defaultPage).index = i + 1 ∧
        (s.items.getD i defaultPage).prompt
          = (plan.items.map (fun p => p.prompt)).getD i "" ∧
        (s.items.getD i defaultPage).imagePath = none ∧
        (s.items.getD i defaultPage).confirmed = none) ∧
    ∀ ops : List SessionOp,
      sessionShapeOK n (applyOps s ops) ∧ (applyOps s ops).pageCount = n := by
  unfold planSessionCore at h
  cases hp : generatePagePrompts n resp with
  | error e => rw [hp] at h; exact absurd h (by simp)
  | ok plan =>
    rw [hp] at h
    have hs : s = createSession title basePrompt n options plan.coverPagePrompt
        (plan.items.map (fun p => p.prompt)) id now := by
      have := h.symm
      simpa using this
    obtain ⟨hlen, _⟩ := generatePagePrompts_ok hp
    have hmaplen : (plan.items.map (fun p => p.prompt)).length = n := by
      simpa using hlen
    have hitems :
        s.items = seedPages 1 (plan.items.map (fun p => p.prompt)) := by
      rw [hs]; rfl
    have hitemslen : s.items.length = n := by
      rw [hitems, seedPages_length, hmaplen]
    have hgetD : ∀ i < n,
        s.items.getD i defaultPage
          = { index := 1 + i,
              prompt := (plan.items.map (fun p => p.prompt)).getD i "" } := by
      intro i hi
      rw [hitems, seedPages_getD 1 _ i (by rw [hmaplen]; exact hi)]
    have hshape : sessionShapeOK n s := by
      refine ⟨by rw [hs]; rfl, hitemslen, ?_⟩
      intro i hi
      rw [hgetD i hi]
      exact Nat.add_comm 1 i
    refine ⟨⟨plan, rfl, by rw [hs]; rfl, by rw [hs]; rfl, by rw [hs]; rfl,
      by rw [hs]; rfl, by rw [hs]; rfl, hitemslen, ?_⟩, ?_⟩
    · intro i hi
      rw [hgetD i hi]
      exact ⟨Nat.add_comm 1 i, rfl, rfl, rfl⟩
    · intro ops
      refine ⟨sessionShapeOK_applyOps n s ops hshape, ?_⟩
      rw [applyOps_pageCount]
      rw [hs]; rfl

/-- A concrete parsed planning-backend response with two interior items. -/
def respPlanEx : ParsedPlanResponse :=
  { content := "x"
    parsed := some ("cover art",
      [{ index := 1, prompt := "p1" }, { index := 2, prompt := "p2" }]) }

/-- The session the planning flow persists for respPlanEx. -/
def sessionPlanEx : SessionState :=
  createSession "Forest Trip" "friendly forest" 2 {} "cover art"
    ["p1", "p2"] "sid" 7

theorem planSession_shape_witness :
    sessionShapeOK 2 (applyOps sessionPlanEx [SessionOp.confirm 1 true 9]) ∧
    (applyOps sessionPlanEx [SessionOp.confirm 1 true 9]).pageCount = 2 :=
  (planSession_shape "Forest Trip" "friendly forest" "sid" 2 {} respPlanEx 7
    sessionPlanEx rfl).2 [SessionOp.confirm 1 true 9]

/-- Claim C7: when the text-planning backend returns an interior item count
different from the requested pageCount, or no (falsy) cover prompt,
generatePagePrompts signals a fatal error and the planning flow propagates
it before createSession runs, so no session is created or persisted. -/
theorem planShapeMismatch_fatal (title basePrompt id : String) (n : Nat)
    (options : SessionOptions) (resp : ParsedPlanResponse) (now : Nat)
    (cover : String) (items : List PlanItem)
    (hp : resp.parsed = some (cover, items))
    (hbad : items.length ≠ n ∨ cover.isEmpty = true) :
    ∃ e, generatePagePrompts n resp = .error e ∧
      planSessionCore title basePrompt n options resp id now = .error e ∧
      ∀ s, planSessionCore title basePrompt n options resp id now ≠ .ok s := by
  obtain ⟨e, he⟩ := generatePagePrompts_bad hp hbad
  refine ⟨e, he, planSessionCore_error he, ?_⟩
  intro s hcontra
  rw [planSessionCore_error he] at hcontra
  exact absurd hcontra (by simp)

theorem planShapeMismatch_fatal_witness :
    ∃ e, generatePagePrompts 3 respPlanEx = .error e ∧
      planSessionCore "T" "B" 3 {} respPlanEx "sid" 7 = .error e ∧
      ∀ s, planSessionCore "T" "B" 3 {} respPlanEx "sid" 7 ≠ .ok s :=
  planShapeMismatch_fatal "T" "B" "sid" 3 {} respPlanEx 7 "cover art"
    [{ index := 1, prompt := "p1" }, { index := 2, prompt := "p2" }]
    rfl (Or.inl (by decide))

/-- Claim C4: finalize on a session in which some page lacks an artifact fails
without building a document, the error lists the index of every
artifact-less page (not just the first), and nothing is regenerated —
finalizeSession never writes the session store. -/
theorem finalize_incomplete_lists_all (s : SessionState) (dims : ArtifactDims)
    (h : ∃ p ∈ s.cover :: s.items, strTruthy p.imagePath = false) :
    finalizeSession s dims = .incomplete (finalizeMissing s) ∧
    (∀ p ∈ s.cover :: s.items,
      strTruthy p.imagePath = false → p.index ∈ finalizeMissing s) ∧
    (∀ i ∈ finalizeMissing s,
      ∃ p ∈ s.cover :: s.items, strTruthy p.imagePath = false ∧ p.index = i) ∧
    ∀ doc, finalizeSession s dims ≠ .done doc := by
  obtain ⟨p, hmem, hempty⟩ := h
  have hmemf : p ∈ (s.cover :: s.items).filter
      (fun p => !(strTruthy p.imagePath)) :=
    List.mem_filter.mpr ⟨hmem, by rw [hempty]; rfl⟩
  have hne : (finalizeMissing s).length ≠ 0 := by
    unfold finalizeMissing
    intro hlen
    rw [List.length_map] at hlen
    rw [List.length_eq_zero.mp hlen] at hmemf
    exact absurd hmemf (List.not_mem_nil p)
  have heq : finalizeSession s dims = .incomplete (finalizeMissing s) := by
    unfold finalizeSession
    rw [if_pos hne]
  refine ⟨heq, ?_, ?_, ?_⟩
  · intro q hq hqe
    unfold finalizeMissing
    exact List.mem_map_of_mem _ (List.mem_filter.mpr ⟨hq, by rw [hqe]; rfl⟩)
  · intro i hi
    unfold finalizeMissing at hi
    obtain ⟨q, hq, hqi⟩ := List.mem_map.mp hi
    obtain ⟨hqmem, hqemp⟩ := List.mem_filter.mp hq
    exact ⟨q, hqmem, by simpa using hqemp, hqi⟩
  · intro doc hcontra
    rw [heq] at hcontra
    exact absurd hcontra (by simp)

/-- A session planned for three interior pages in which pages 2 and 3 still
lack artifacts. -/
def sessionIncompleteEx : SessionState :=
  { id := "sid", title := "T", basePrompt := "B", pageCount := 3
    cover := { index := 0, prompt := "c", imagePath := some "page-0-1.png" }
    items :=
      [{ index := 1, prompt := "p1", imagePath := some "page-1-2.png" },
       { index := 2, prompt := "p2" },
       { index := 3, prompt := "p3" }]
    createdAt := 0, updatedAt := 0 }

/-- Native artifact dimensions used in concrete finalize runs. -/
def dimsEx : ArtifactDims := fun _ => (100, 200)

theorem finalize_incomplete_lists_all_witness :
    finalizeSession sessionIncompleteEx dimsEx
      = .incomplete (finalizeMissing sessionIncompleteEx) ∧
    finalizeMissing sessionIncompleteEx = [2, 3] :=
  ⟨(finalize_incomplete_lists_all sessionIncompleteEx dimsEx (by decide)).1,
    by decide⟩

/-- An x || d read of a present nonzero value yields the value. -/
theorem jsOr_some {v : ℚ} (d : ℚ) (hv : v ≠ 0) : jsOr (some v) d = v := by
  show (if v = 0 then d else v) = v
  rw [if_neg hv]

/-- w within the [1, 30] clamp passes through unchanged. -/
theorem clampInches_of_range {w : ℚ} (h1 : 1 ≤ w) (h30 : w ≤ 30) (d : ℚ) :
    clampInches (some w) d = w := by
  unfold clampInches
  rw [jsOr_some d (by intro h0; rw [h0] at h1; norm_num at h1)]
  rw [min_eq_right h30, max_eq_right h1]

/-- The print spec requesting 40 × 10 inches — 40 is outside the source's
[1, 30] inch clamp. -/
def printSpec40 : PrintSpec :=
  { widthInches := some 40, heightInches := some 10 }

/-- A fully populated two-page session carrying printSpec40. -/
def sessionPrintEx : SessionState :=
  { id := "sid", title := "T", basePrompt := "B", pageCount := 1
    options := { printSpec := some printSpec40 }
    cover := { index := 0, prompt := "c", imagePath := some "a.png" }
    items := [{ index := 1, prompt := "p1", imagePath := some "b.png" }]
    createdAt := 0, updatedAt := 0 }

/-- The page widths of an assembled document (empty when none was built). -/
def docPageWidths : FinalizeResult → List ℚ
  | .incomplete _ => []
  | .done doc => doc.pages.map (fun p => p.width)

/-- Claim C9 counterexample: finalize on a fully populated session whose print
spec says 40 × 10 inches produces pages 2160 points wide, not
40 × 72 = 2880 — the claimed width × 72 points fails because the source
clamps inches to [1, 30] (and rounds) first. -/
theorem finalize_print_size_counterexample :
    docPageWidths (finalizeSession sessionPrintEx dimsEx) = [2160, 2160] ∧
    (2160 : ℚ) ≠ 40 * 72 := by
  constructor
  · have h1 : finalizeMissing sessionPrintEx = [] := by decide
    have h2 : finalizeSession sessionPrintEx dimsEx
        = .done (finalizePrintDoc sessionPrintEx dimsEx printSpec40) := by
      unfold finalizeSession
      rw [if_neg (by rw [h1]; simp)]
      rfl
    rw [h2]
    show (finalizePrintDoc sessionPrintEx dimsEx printSpec40).pages.map
        (fun p => p.width) = [2160, 2160]
    have hclamp : clampInches printSpec40.widthInches 8.27 = 30 := by
      norm_num [clampInches, jsOr, printSpec40]
    have hround : jsRound ((30 : ℚ) * 72) = 2160 := by
      norm_num [jsRound, Int.floor_eq_iff]
    simp [finalizePrintDoc, buildPdfAtSize, finalizeImages, sessionPrintEx,
      hclamp, hround]
  · norm_num

/-- Claim C9 (amended): finalize on a fully populated session with a print spec
of w × h inches, both within the source's [1, 30] clamp, produces a
document in which every page measures round(w × 72) by round(h × 72)
points regardless of each artifact's native dimensions, under both the
contain and the cover fit policy (which never changes the page box). -/
theorem finalize_print_size (s : SessionState) (dims : ArtifactDims)
    (print : PrintSpec) (w h : ℚ)
    (hcomplete : finalizeMissing s = [])
    (hps : s.options.printSpec = some print)
    (hw : print.widthInches = some w) (hh : print.heightInches = some h)
    (hw1 : 1 ≤ w) (hw30 : w ≤ 30) (hh1 : 1 ≤ h) (hh30 : h ≤ 30) :
    (fitOf print.fit = FitMode.contain ∨ fitOf print.fit = FitMode.cover) ∧
    ∃ doc, finalizeSession s dims = .done doc ∧
      doc.pages.length = s.items.length + 1 ∧
      ∀ pg ∈ doc.pages,
        pg.width = (jsRound (w * 72) : ℚ) ∧
        pg.height = (jsRound (h * 72) : ℚ) := by
  constructor
  · unfold fitOf
    split
    · exact Or.inr rfl
    · exact Or.inl rfl
  · refine ⟨finalizePrintDoc s dims print, ?_, ?_, ?_⟩
    · unfold finalizeSession
      rw [if_neg (by rw [hcomplete]; simp), hps]
    · simp [finalizePrintDoc, buildPdfAtSize, finalizeImages]
    · intro pg hpg
      unfold finalizePrintDoc buildPdfAtSize at hpg
      simp only [List.mem_map] at hpg
      obtain ⟨d, _, hd⟩ := hpg
      rw [← hd]
      constructor
      · show ((jsRound (clampInches print.widthInches 8.27 * 72) : ℤ) : ℚ)
            = (jsRound (w * 72) : ℚ)
        rw [hw, clampInches_of_range hw1 hw30]
      · show ((jsRound (clampInches print.heightInches 11.69 * 72) : ℤ) : ℚ)
            = (jsRound (h * 72) : ℚ)
        rw [hh, clampInches_of_range hh1 hh30]

/-- An in-range 8 × 10 inch print spec requesting the cover fit policy. -/
def printSpec8x10 : PrintSpec :=
  { widthInches := some 8, heightInches := some 10, fit := some "cover" }

/-- A fully populated session carrying printSpec8x10. -/
def sessionPrintEx2 : SessionState :=
  { id := "sid", title := "T", basePrompt := "B", pageCount := 1
    options := { printSpec := some printSpec8x10 }
    cover := { index := 0, prompt := "c", imagePath := some "a.png" }
    items := [{ index := 1, prompt := "p1", imagePath := some "b.png" }]
    createdAt := 0, updatedAt := 0 }

theorem finalize_print_size_witness :
    (fitOf printSpec8x10.fit = FitMode.contain ∨
      fitOf printSpec8x10.fit = FitMode.cover) ∧
    ∃ doc, finalizeSession sessionPrintEx2 dimsEx = .done doc ∧
      doc.pages.length = sessionPrintEx2.items.length + 1 ∧
      ∀ pg ∈ doc.pages,
        pg.width = (jsRound ((8 : ℚ) * 72) : ℚ) ∧
        pg.height = (jsRound ((10 : ℚ) * 72) : ℚ) :=
  finalize_print_size sessionPrintEx2 dimsEx printSpec8x10
    8 10 (by decide) rfl rfl rfl (by norm_num) (by norm_num) (by norm_num)
    (by norm_num)

/-! ## Further store lemmas -/

theorem get?_listModify (l : List α) (k i : Nat) (f : α → α) :
    (listModify l k f).get? i =
      if i = k then (l.get? i).map f else l.get? i := by
  induction l generalizing k i with
  | nil => simp [listModify]
  | cons a t ih =>
    cases k with
    | zero =>
      cases i with
      | zero => simp [listModify]
      | succ i => simp [listModify, Nat.succ_ne_zero]
    | succ k =>
      cases i with
      | zero => simp [listModify]
      | succ i =>
        simp only [listModify, List.get?_cons_succ, ih]
        by_cases h : i = k
        · rw [if_pos h, if_pos (by omega)]
        · rw [if_neg h, if_neg (by omega)]

theorem listModify_listModify (l : List α) (k : Nat) (f g : α → α) :
    listModify (listModify l k f) k g = listModify l k (fun a => g (f a)) := by
  induction l generalizing k with
  | nil => rfl
  | cons a t ih =>
    cases k with
    | zero => rfl
    | succ k => simp [listModify, ih]

theorem updatePage_updatePage (s : SessionState) (idx : Nat)
    (f g : SessionPageState → SessionPageState) :
    updatePage (updatePage s idx f) idx g
      = updatePage s idx (fun p => g (f p)) := by
  unfold updatePage
  split
  · rfl
  · simp [listModify_listModify]

theorem updatePage_congr (s : SessionState) (idx : Nat)
    (f g : SessionPageState → SessionPageState) (h : ∀ p, f p = g p) :
    updatePage s idx f = updatePage s idx g := by
  have : f = g := funext h
  rw [this]

theorem getPage?_saveSession (s : SessionState) (t : Nat) (j : Nat) :
    getPage? (saveSession s t) j = getPage? s j := rfl

theorem pageAt_saveSession (s : SessionState) (t : Nat) (j : Nat) :
    pageAt (saveSession s t) j = pageAt s j := rfl

theorem updatePage_saveSession (s : SessionState) (t : Nat) (idx : Nat)
    (f : SessionPageState → SessionPageState) :
    updatePage (saveSession s t) idx f = saveSession (updatePage s idx f) t := by
  unfold updatePage saveSession
  split
  · rfl
  · rfl

theorem getPage?_updatePage_self (s : SessionState) (idx : Nat)
    (f : SessionPageState → SessionPageState) (pg : SessionPageState)
    (hg : getPage? s idx = some pg) :
    getPage? (updatePage s idx f) idx = some (f pg) := by
  unfold getPage? at hg ⊢
  by_cases hgt : idx > s.pageCount
  · rw [if_pos hgt] at hg; exact absurd hg (by simp)
  · rw [if_neg hgt] at hg
    rw [if_neg (by rw [updatePage_pageCount]; exact hgt)]
    by_cases h0 : idx = 0
    · rw [if_pos h0] at hg
      rw [if_pos h0]
      unfold updatePage
      rw [if_pos h0]
      simpa using congrArg (Option.map f) hg
    · rw [if_neg h0] at hg
      rw [if_neg h0]
      unfold updatePage
      rw [if_neg h0]
      show (listModify s.items (idx - 1) f).get? (idx - 1) = some (f pg)
      rw [get?_listModify, if_pos rfl, hg]
      rfl

theorem pageAt_updatePage_self (s : SessionState) (idx : Nat)
    (f : SessionPageState → SessionPageState) (pg : SessionPageState)
    (hg : getPage? s idx = some pg) :
    pageAt (updatePage s idx f) idx = f (pageAt s idx) ∧ pageAt s idx = pg := by
  unfold getPage? at hg
  by_cases hgt : idx > s.pageCount
  · rw [if_pos hgt] at hg; exact absurd hg (by simp)
  · rw [if_neg hgt] at hg
    by_cases h0 : idx = 0
    · subst h0
      rw [if_pos rfl] at hg
      constructor
      · simp [pageAt, updatePage]
      · simpa [pageAt] using hg
    · rw [if_neg h0] at hg
      have hlt : idx - 1 < s.items.length := by
        by_contra hge
        rw [List.get?_eq_none.mpr (by omega)] at hg
        exact absurd hg (by simp)
      constructor
      · simp only [pageAt, updatePage, if_neg h0]
        rw [getD_listModify, if_pos ⟨rfl, hlt⟩]
      · simp only [pageAt, if_neg h0]
        rw [List.getD_eq_getElem?_getD, ← List.get?_eq_getElem?, hg]
        rfl

theorem pageAt_updatePage_other (s : SessionState) (idx j : Nat)
    (f : SessionPageState → SessionPageState) (hne : j ≠ idx) :
    pageAt (updatePage s idx f) j = pageAt s j := by
  by_cases h0 : idx = 0
  · subst h0
    simp [pageAt, updatePage, hne]
  · simp only [pageAt, updatePage, if_neg h0]
    by_cases hj0 : j = 0
    · simp only [if_pos hj0]
    · simp only [if_neg hj0]
      rw [getD_listModify, if_neg (by intro hc; exact hne (by omega))]

theorem saveSession_saveSession (s : SessionState) (t1 t2 : Nat) :
    saveSession (saveSession s t1) t2 = saveSession s t2 := rfl

theorem markConfirmed_eq (s : SessionState) (idx : Nat) (c : Bool) (t : Nat)
    (pg : SessionPageState) (hg : getPage? s idx = some pg) :
    markConfirmed s idx c t
      = saveSession (updatePage s idx (fun q => { q with confirmed := some c })) t := by
  unfold markConfirmed
  rw [hg]

/-- A planned one-page session with nothing generated yet. -/
def sessionConfEx : SessionState :=
  { id := "sid", title := "T", basePrompt := "B", pageCount := 1
    cover := { index := 0, prompt := "c" }
    items := [{ index := 1, prompt := "p1" }]
    createdAt := 0, updatedAt := 0 }

/-- Claim C8 counterexample: Confirm is persisted through saveSession, which
refreshes the updatedAt timestamp on every call — so a second Confirm with
the same value at a later clock tick changes the stored session record, and
the second call is not a no-op on it. -/
theorem confirm_twice_counterexample :
    markConfirmed (markConfirmed sessionConfEx 0 true 1) 0 true 2
      ≠ markConfirmed sessionConfEx 0 true 1 := by decide

/-- Claim C8 (amended): calling Confirm twice with the same value leaves the
stored session unchanged except for the updatedAt timestamp: the second
call produces exactly the first call's state passed once more through
saveSession (pages, prompts, artifacts and flags untouched). -/
theorem confirm_twice_only_updatedAt (s : SessionState) (idx : Nat) (c : Bool)
    (t1 t2 : Nat) (hsome : (getPage? s idx).isSome) :
    markConfirmed (markConfirmed s idx c t1) idx c t2
      = saveSession (markConfirmed s idx c t1) t2 := by
  obtain ⟨pg, hg⟩ := Option.isSome_iff_exists.mp hsome
  have h1 := markConfirmed_eq s idx c t1 pg hg
  have hg1 : getPage?
      (saveSession (updatePage s idx
        (fun q => { q with confirmed := some c })) t1) idx
      = some { pg with confirmed := some c } := by
    rw [getPage?_saveSession]
    exact getPage?_updatePage_self s idx _ pg hg
  rw [h1, markConfirmed_eq _ idx c t2 _ hg1, updatePage_saveSession,
    saveSession_saveSession, saveSession_saveSession, updatePage_updatePage]

theorem confirm_twice_only_updatedAt_witness :
    markConfirmed (markConfirmed sessionConfEx 0 true 1) 0 true 2
      = saveSession (markConfirmed sessionConfEx 0 true 1) 2 :=
  confirm_twice_only_updatedAt sessionConfEx 0 true 1 2 (by decide)

/-- A one-page session whose interior page already holds an artifact. -/
def sessionFilledP1 : SessionState :=
  { id := "sid", title := "T", basePrompt := "B", pageCount := 1
    cover := { index := 0, prompt := "c", imagePath := some "page-0-1.png" }
    items := [{ index := 1, prompt := "p1",
                imagePath := some "page-1-5.png",
                mimeType := some "image/png" }]
    createdAt := 0, updatedAt := 0 }

theorem storePageImage_eq (s : SessionState) (idx : Nat)
    (mime : Option String) (ts : Nat) (pg : SessionPageState)
    (hg : getPage? s idx = some pg) :
    storePageImage s idx mime ts
      = saveSession (updatePage s idx (fun q =>
          { q with imagePath := some (pageImageFile idx ts (extFor mime)),
                   mimeType := some (mimeOrPng mime) })) ts := by
  unfold storePageImage
  rw [hg]

/-- Claim C6: Replace with decodable bytes on a valid page index persists the
supplied artifact unconditionally — the stored reference becomes the fresh
timestamped file regardless of what the slot held, no empty-slot or
pre-call-match recheck is consulted (the result is a plain
update-and-save), and every other page is untouched. -/
theorem replace_persists_unconditionally (s : SessionState) (idx : Nat)
    (mime : Option String) (ts : Nat) (pg : SessionPageState)
    (hg : getPage? s idx = some pg) :
    (pageAt (replacePageImage s idx mime ts) idx).imagePath
      = some (pageImageFile idx ts (extFor mime)) ∧
    (pageAt (replacePageImage s idx mime ts) idx).mimeType
      = some (mimeOrPng mime) ∧
    (∀ j, j ≠ idx → pageAt (replacePageImage s idx mime ts) j = pageAt s j) ∧
    replacePageImage s idx mime ts
      = saveSession (updatePage s idx (fun q =>
          { q with imagePath := some (pageImageFile idx ts (extFor mime)),
                   mimeType := some (mimeOrPng mime) })) ts := by
  have hrepl : replacePageImage s idx mime ts
      = saveSession (updatePage s idx (fun q =>
          { q with imagePath := some (pageImageFile idx ts (extFor mime)),
                   mimeType := some (mimeOrPng mime) })) ts :=
    storePageImage_eq s idx mime ts pg hg
  obtain ⟨hself, _⟩ := pageAt_updatePage_self s idx
    (fun q => { q with
                  imagePath := some (pageImageFile idx ts (extFor mime)),
                  mimeType := some (mimeOrPng mime) }) pg hg
  refine ⟨?_, ?_, ?_, hrepl⟩
  · rw [hrepl, pageAt_saveSession, hself]
  · rw [hrepl, pageAt_saveSession, hself]
  · intro j hj
    rw [hrepl, pageAt_saveSession, pageAt_updatePage_other s idx j _ hj]

theorem replace_persists_unconditionally_witness :
    (pageAt (replacePageImage sessionFilledP1 1 (some "image/jpeg") 9) 1).imagePath
      = some (pageImageFile 1 9 (extFor (some "image/jpeg"))) ∧
    (pageAt (replacePageImage sessionFilledP1 1 (some "image/jpeg") 9) 1).mimeType
      = some (mimeOrPng (some "image/jpeg")) ∧
    (∀ j, j ≠ 1 →
      pageAt (replacePageImage sessionFilledP1 1 (some "image/jpeg") 9) j
        = pageAt sessionFilledP1 j) ∧
    replacePageImage sessionFilledP1 1 (some "image/jpeg") 9
      = saveSession (updatePage sessionFilledP1 1 (fun q =>
          { q with
              imagePath := some (pageImageFile 1 9 (extFor (some "image/jpeg"))),
              mimeType := some (mimeOrPng (some "image/jpeg")) })) 9 :=
  replace_persists_unconditionally sessionFilledP1 1 (some "image/jpeg") 9
    { index := 1, prompt := "p1", imagePath := some "page-1-5.png",
      mimeType := some "image/png" } (by decide)

/-! ## Context window selector theorems -/

theorem mem_take_getD (l : List α) (k : Nat) (p : α) (d : α)
    (hp : p ∈ l.take k) :
    ∃ j, j < k ∧ j < l.length ∧ l.getD j d = p := by
  induction l generalizing k with
  | nil => simp at hp
  | cons a t ih =>
    cases k with
    | zero => simp at hp
    | succ k =>
      rw [List.take_succ_cons] at hp
      rcases List.mem_cons.mp hp with h | h
      · exact ⟨0, by omega, by simp, by simp [h.symm]⟩
      · obtain ⟨j, hj1, hj2, hj3⟩ := ih k h
        refine ⟨j + 1, by omega, by simp; omega, by simpa using hj3⟩

theorem shape_getD_index (n : Nat) (s : SessionState)
    (h : sessionShapeOK n s) (j : Nat)
    (hj : j < (s.cover :: s.items).length) :
    ((s.cover :: s.items).getD j defaultPage).index = j := by
  obtain ⟨hc, hl, hi⟩ := h
  cases j with
  | zero => simpa using hc
  | succ j =>
    simp only [List.getD_cons_succ]
    have hjn : j < n := by
      simp only [List.length_cons] at hj
      omega
    rw [hi j hjn]

theorem shape_pairwise_index (n : Nat) (s : SessionState)
    (h : sessionShapeOK n s) :
    List.Pairwise (fun a b => a.index < b.index) (s.cover :: s.items) := by
  rw [List.pairwise_iff_get]
  intro i j hij
  have hi := shape_getD_index n s h i (by omega)
  have hj := shape_getD_index n s h j (by omega)
  rw [List.getD_eq_getElem?_getD, List.getElem?_eq_getElem (by omega)] at hi hj
  simp only [Option.getD_some] at hi hj
  show ((s.cover :: s.items).get i).index < ((s.cover :: s.items).get j).index
  rw [List.get_eq_getElem, List.get_eq_getElem, hi, hj]
  exact hij

/-- Claim C3 (amended): getLastPrevImages returns exactly the last
max(1, floor(c)) of the prior artifact-bearing pages — pages with index
strictly below the target that hold an artifact, in index order with the
highest index last — returning fewer (possibly zero) when fewer exist;
for every c ≥ 1 the bound max(1, floor(c)) is floor(c), so the window never
exceeds an integer requested count ≥ 1; and the orchestrator appends the
session's standing context images to the assembled list regardless of the
target's position. -/
theorem context_window (s : SessionState) (idx : Nat) (c : ℚ)
    (h : sessionShapeOK s.items.length s) :
    getLastPrevImages s idx c
      = (lastN (((s.cover :: s.items).take idx).filter
          (fun p => strTruthy p.imagePath)) ((max 1 ⌊c⌋).toNat)).map refOf ∧
    (getLastPrevImages s idx c).length
      = min ((max 1 ⌊c⌋).toNat)
          (((s.cover :: s.items).take idx).filter
            (fun p => strTruthy p.imagePath)).length ∧
    (1 ≤ c → (((max 1 ⌊c⌋).toNat : ℤ)) = ⌊c⌋) ∧
    (∀ p ∈ ((s.cover :: s.items).take idx).filter
        (fun p => strTruthy p.imagePath),
      p.index < idx ∧ strTruthy p.imagePath = true) ∧
    List.Pairwise (fun a b => a.index < b.index)
      (((s.cover :: s.items).take idx).filter
        (fun p => strTruthy p.imagePath)) ∧
    ∀ u, storybookGenerateCombo s idx u
      = unshiftUserRef u
          (getLastPrevImages s idx 3 ++ getContextImageBuffers s) := by
  refine ⟨rfl, ?_, ?_, ?_, ?_, fun u => rfl⟩
  · show ((lastN (((s.cover :: s.items).take idx).filter
        (fun p => strTruthy p.imagePath)) ((max 1 ⌊c⌋).toNat)).map refOf).length
        = _
    rw [List.length_map, lastN_length]
  · intro hc
    have hfloor : 1 ≤ ⌊c⌋ := by
      rw [Int.le_floor]
      exact_mod_cast hc
    rw [max_eq_right hfloor]
    exact Int.toNat_of_nonneg (by omega)
  · intro p hp
    obtain ⟨hmem, htruthy⟩ := List.mem_filter.mp hp
    obtain ⟨j, hjk, hjlen, hjget⟩ :=
      mem_take_getD (s.cover :: s.items) idx p defaultPage hmem
    refine ⟨?_, by simpa using htruthy⟩
    have := shape_getD_index s.items.length s h j hjlen
    rw [hjget] at this
    omega
  · exact List.Pairwise.sublist
      ((List.filter_sublist _).trans (List.take_sublist _ _))
      (shape_pairwise_index s.items.length s h)

/-- A one-page session whose cover already holds an artifact. -/
def sessionCtxEx : SessionState :=
  { id := "sid", title := "T", basePrompt := "B", pageCount := 1
    cover := { index := 0, prompt := "c", imagePath := some "page-0-1.png" }
    items := [{ index := 1, prompt := "p1" }]
    createdAt := 0, updatedAt := 0 }

/-- Claim C3 counterexample: for requested count c = 0 the selector still returns
one artifact, because the source applies Math.max(1, Math.floor(count)) —
so the returned list is not "at most c" long. -/
theorem context_window_counterexample :
    (getLastPrevImages sessionCtxEx 1 0).length = 1 ∧
    ¬(((getLastPrevImages sessionCtxEx 1 0).length : ℚ) ≤ 0) := by
  have h1 : (getLastPrevImages sessionCtxEx 1 0).length = 1 := by
    show ((lastN (((sessionCtxEx.cover :: sessionCtxEx.items).take 1).filter
        (fun p => strTruthy p.imagePath)) ((max 1 ⌊(0 : ℚ)⌋).toNat)).map
        refOf).length = 1
    have hfilter : ((sessionCtxEx.cover :: sessionCtxEx.items).take 1).filter
        (fun p => strTruthy p.imagePath) = [sessionCtxEx.cover] := by decide
    have hn : (max 1 ⌊(0 : ℚ)⌋).toNat = 1 := by norm_num
    rw [hfilter, hn]
    decide
  refine ⟨h1, ?_⟩
  rw [h1]
  norm_num

theorem context_window_witness :
    getLastPrevImages sessionCtxEx 1 3
      = (lastN (((sessionCtxEx.cover :: sessionCtxEx.items).take 1).filter
          (fun p => strTruthy p.imagePath)) ((max 1 ⌊(3 : ℚ)⌋).toNat)).map refOf ∧
    (1 ≤ (3 : ℚ) → (((max 1 ⌊(3 : ℚ)⌋).toNat : ℤ)) = ⌊(3 : ℚ)⌋) :=
  ⟨(context_window sessionCtxEx 1 3 (by decide)).1,
    (context_window sessionCtxEx 1 3 (by decide)).2.2.1⟩

/-! ## Concurrency guard theorems -/

/-- Claim C1 (amended): the storybook controller's Generate and Edit doWork —
run identically in synchronous and fire-and-return mode — persist the
produced artifact only after re-loading the session: Generate persists
exactly when the re-loaded slot is still empty and otherwise discards the
artifact leaving the re-loaded state untouched; Edit discards exactly when
the re-loaded slot holds an artifact different from the pre-call snapshot,
and otherwise persists.  (The coloring-book and poems foreground
Generate/Edit handlers persist unconditionally; see the counterexample.) -/
theorem storybook_guarded_persist (prePage : SessionPageState) (idx : Nat)
    (mime : Option String) (ts : Nat) (a : SessionState) :
    (strTruthy (pageAt a idx).imagePath = true →
      storybookGenerateDoWork idx mime ts (some a) = some a) ∧
    (strTruthy (pageAt a idx).imagePath = false →
      storybookGenerateDoWork idx mime ts (some a)
        = some (storePageImage a idx mime ts)) ∧
    (strTruthy (pageAt a idx).imagePath = true →
      prePage.imagePath ≠ (pageAt a idx).imagePath →
      storybookEditDoWork prePage idx mime ts (some a) = some a) ∧
    ((strTruthy (pageAt a idx).imagePath = false ∨
      prePage.imagePath = (pageAt a idx).imagePath) →
      storybookEditDoWork prePage idx mime ts (some a)
        = some (storePageImage a idx mime ts)) := by
  refine ⟨?_, ?_, ?_, ?_⟩
  · intro ht
    simp [storybookGenerateDoWork, ht]
  · intro hf
    simp [storybookGenerateDoWork, hf]
  · intro ht hne
    simp [storybookEditDoWork, ht, hne]
  · intro hor
    rcases hor with hf | he
    · simp [storybookEditDoWork, hf]
    · simp [storybookEditDoWork, he]

theorem storybook_guarded_persist_witness :
    storybookGenerateDoWork 1 (some "image/png") 9 (some sessionFilledP1)
      = some sessionFilledP1 ∧
    storybookGenerateDoWork 1 (some "image/png") 9 (some sessionConfEx)
      = some (storePageImage sessionConfEx 1 (some "image/png") 9) ∧
    storybookEditDoWork { index := 1, prompt := "p1" } 1 (some "image/png") 9
      (some sessionFilledP1) = some sessionFilledP1 ∧
    storybookEditDoWork
      { index := 1, prompt := "p1", imagePath := some "page-1-5.png",
        mimeType := some "image/png" } 1 (some "image/png") 9
      (some sessionFilledP1)
      = some (storePageImage sessionFilledP1 1 (some "image/png") 9) :=
  ⟨(storybook_guarded_persist { index := 1, prompt := "p1" } 1
      (some "image/png") 9 sessionFilledP1).1 (by decide),
   (storybook_guarded_persist { index := 1, prompt := "p1" } 1
      (some "image/png") 9 sessionConfEx).2.1 (by decide),
   (storybook_guarded_persist { index := 1, prompt := "p1" } 1
      (some "image/png") 9 sessionFilledP1).2.2.1 (by decide) (by decide),
   (storybook_guarded_persist
      { index := 1, prompt := "p1", imagePath := some "page-1-5.png",
        mimeType := some "image/png" } 1 (some "image/png") 9
      sessionFilledP1).2.2.2 (Or.inr (by decide))⟩

/-- Claim C1 counterexample: the coloring-book foreground generatePage handler
persists through storePageImage with no re-load guard — here the target
slot holds page-1-5.png when the write happens, yet the freshly produced
artifact is persisted and the stored reference changes, contradicting
"persisted only if the slot is still empty, otherwise discarded and the
stored reference unchanged". -/
theorem coloring_generate_unguarded_counterexample :
    strTruthy (pageAt sessionFilledP1 1).imagePath = true ∧
    (coloringGeneratePage sessionConfEx 1 (some "image/png") 9
        sessionFilledP1).map (fun s => (pageAt s 1).imagePath)
      = some (some "page-1-9.png") ∧
    some "page-1-9.png" ≠ (pageAt sessionFilledP1 1).imagePath := by decide

/-! ## Background sweep theorems -/

theorem sweepStepAction_ne_stop (o : SweepOracle) (i : Nat)
    (hb : (o.loadBefore i).isSome) (ha : (o.loadAfter i).isSome) :
    sweepStepAction o i ≠ SweepAction.stop := by
  cases hbi : o.loadBefore i with
  | none => rw [hbi] at hb; exact absurd hb (by simp)
  | some cur =>
    cases hai : o.loadAfter i with
    | none => rw [hai] at ha; exact absurd ha (by simp)
    | some after =>
      simp only [sweepStepAction, hbi, hai]
      split
      · simp
      · split
        · simp
        · split <;> simp

theorem sweepGo_eq (o : SweepOracle)
    (hb : ∀ j, (o.loadBefore j).isSome) (ha : ∀ j, (o.loadAfter j).isSome) :
    ∀ fuel i, sweepGo o i fuel
      = (List.range' i fuel).map (fun j => (j, sweepStepAction o j)) := by
  intro fuel
  induction fuel with
  | zero => intro i; rfl
  | succ fuel ih =>
    intro i
    show (i, sweepStepAction o i) ::
        (if sweepStepAction o i = SweepAction.stop then []
         else sweepGo o (i + 1) fuel) = _
    rw [if_neg (sweepStepAction_ne_stop o i (hb i) (ha i)), ih (i + 1)]
    rfl

/-- Claim C5: with the session present at every load, the background sweep's
trace is exactly one entry per index 0..pageCount in ascending order, the
action at each index is decided from the state freshly re-loaded at that
index: a page already holding an artifact is skipped, a failed generation
is caught as a fail entry, and otherwise the guard re-load decides between
discard and store.  Because the trace is a map over the full range, a
failure at one index never removes a later index, and no index appears
twice (no retry). -/
theorem background_sweep_trace (o : SweepOracle) (st : SessionState)
    (hinit : o.initial = some st)
    (hb : ∀ j, (o.loadBefore j).isSome)
    (ha : ∀ j, (o.loadAfter j).isSome) :
    backgroundGenerateAll o
      = (List.range (1 + st.pageCount)).map
          (fun i => (i, sweepStepAction o i)) ∧
    (backgroundGenerateAll o).map Prod.fst = List.range (1 + st.pageCount) ∧
    (∀ i cur, o.loadBefore i = some cur →
      (strTruthy (pageAt cur i).imagePath = true →
        sweepStepAction o i = SweepAction.skip) ∧
      (strTruthy (pageAt cur i).imagePath = false → o.genOk i = false →
        sweepStepAction o i = SweepAction.fail) ∧
      (∀ after, strTruthy (pageAt cur i).imagePath = false →
        o.genOk i = true → o.loadAfter i = some after →
        sweepStepAction o i =
          (if strTruthy (pageAt after i).imagePath then SweepAction.discard
           else SweepAction.store))) := by
  have htrace : backgroundGenerateAll o
      = (List.range (1 + st.pageCount)).map
          (fun i => (i, sweepStepAction o i)) := by
    unfold backgroundGenerateAll
    rw [hinit]
    rw [show (match some st with
        | none => ([] : List (Nat × SweepAction))
        | some st => sweepGo o 0 (1 + st.pageCount))
        = sweepGo o 0 (1 + st.pageCount) from rfl]
    rw [sweepGo_eq o hb ha (1 + st.pageCount) 0, List.range_eq_range']
  refine ⟨htrace, ?_, ?_⟩
  · rw [htrace, List.map_map]
    exact List.map_id' _
  · intro i cur hcur
    refine ⟨?_, ?_, ?_⟩
    · intro ht
      simp [sweepStepAction, hcur, ht]
    · intro hf hg
      simp [sweepStepAction, hcur, hf, hg]
    · intro after hf hg hafter
      simp [sweepStepAction, hcur, hf, hg, hafter]

/-- A concrete sweep environment: the store always answers with
sessionIncompleteEx and generation fails at index 2 only. -/
def sweepOracleEx : SweepOracle :=
  { initial := some sessionIncompleteEx
    loadBefore := fun _ => some sessionIncompleteEx
    genOk := fun i => !(i == 2)
    loadAfter := fun _ => some sessionIncompleteEx }

theorem background_sweep_trace_witness :
    backgroundGenerateAll sweepOracleEx
      = (List.range (1 + sessionIncompleteEx.pageCount)).map
          (fun i => (i, sweepStepAction sweepOracleEx i)) ∧
    (backgroundGenerateAll sweepOracleEx).map Prod.fst
      = List.range (1 + sessionIncompleteEx.pageCount) :=
  ⟨(background_sweep_trace sweepOracleEx sessionIncompleteEx rfl
      (fun _ => rfl) (fun _ => rfl)).1,
   (background_sweep_trace sweepOracleEx sessionIncompleteEx rfl
      (fun _ => rfl) (fun _ => rfl)).2.1⟩

/-! ## Image backend truncation theorem -/

/-- Claim C10: when the assembled previousImages list is longer than three, the
image backend wrapper sends only its last three entries — in particular a
caller-supplied per-call reference image, which the orchestrator unshifts
to the front of the combo for priority, is silently dropped whenever the
prior artifacts plus standing context images already fill three slots. -/
theorem gemini_truncates_to_last_three (prev refs : List ArtifactRef)
    (r : ArtifactRef) (h3 : 3 ≤ (prev ++ refs).length) :
    (∀ s idx u, storybookGenerateCombo s idx u
        = unshiftUserRef u
            (getLastPrevImages s idx 3 ++ getContextImageBuffers s)) ∧
    (unshiftUserRef (some r) (prev ++ refs)).length > 3 ∧
    geminiContextImages (unshiftUserRef (some r) (prev ++ refs)) none
      = lastN (prev ++ refs) 3 ∧
    (geminiContextImages (unshiftUserRef (some r) (prev ++ refs)) none).length
      = 3 := by
  have hsent : geminiContextImages (unshiftUserRef (some r) (prev ++ refs)) none
      = lastN (prev ++ refs) 3 := by
    show geminiContextImages (r :: (prev ++ refs)) none = _
    unfold geminiContextImages
    rw [if_pos (by simp)]
    exact lastN_cons_of_le r _ 3 h3
  refine ⟨fun s idx u => rfl, ?_, hsent, ?_⟩
  · show (r :: (prev ++ refs)).length > 3
    simp only [List.length_cons]
    omega
  · rw [hsent, lastN_length]
    omega

theorem gemini_truncates_to_last_three_witness :
    (∀ s idx u, storybookGenerateCombo s idx u
        = unshiftUserRef u
            (getLastPrevImages s idx 3 ++ getContextImageBuffers s)) ∧
    (unshiftUserRef (some { imagePath := "user.png" })
      ([{ imagePath := "p1.png" }, { imagePath := "p2.png" }]
        ++ [{ imagePath := "c1.png" }])).length > 3 ∧
    geminiContextImages
      (unshiftUserRef (some { imagePath := "user.png" })
        ([{ imagePath := "p1.png" }, { imagePath := "p2.png" }]
          ++ [{ imagePath := "c1.png" }])) none
      = lastN ([{ imagePath := "p1.png" }, { imagePath := "p2.png" }]
          ++ [{ imagePath := "c1.png" }]) 3 ∧
    (geminiContextImages
      (unshiftUserRef (some { imagePath := "user.png" })
        ([{ imagePath := "p1.png" }, { imagePath := "p2.png" }]
          ++ [{ imagePath := "c1.png" }])) none).length = 3 :=
  gemini_truncates_to_last_three
    [{ imagePath := "p1.png" }, { imagePath := "p2.png" }]
    [{ imagePath := "c1.png" }] { imagePath := "user.png" } (by decide)

end Picstories
